import Mathlib

/-!
Verification of the Colmol document-reconciliation engine
(`rececao/services.py`) against its natural-language specification.

The Python source is shallowly embedded: pure helper functions become Lean
functions over `List Char` / `String`, Python `float` values become `ℚ`
(every numeric literal involved is exactly representable), Django ORM state
(PurchaseOrder / POLine / CodeMapping / ReceiptLine / ExceptionTask rows)
becomes explicit lists threaded through state-passing functions, and
`process_inbound` becomes a function from the extracted payload plus the
current database state to the updated state and the `MatchResult`.
-/

namespace Colmol

/-! ## Generic list/string helpers mirroring Python primitives -/

/-- Whitespace set of Python `str.strip()` (ASCII part; inputs here are ASCII). -/
def isWs (c : Char) : Bool :=
  c == ' ' || c == '\t' || c == '\n' || c == '\r' || c == '\x0b' || c == '\x0c'

/-- Python `str.strip()` on a character list. -/
def trimWs (l : List Char) : List Char :=
  ((l.dropWhile isWs).reverse.dropWhile isWs).reverse

/-- Python `str.split(sep)` for a single-character separator:
`splitSep ',' "a,b"` = `["a","b"]`, `splitSep ',' ","` = `["",""]`. -/
def splitSep (sep : Char) : List Char → List (List Char)
  | [] => [[]]
  | c :: t =>
    if c = sep then [] :: splitSep sep t
    else
      match splitSep sep t with
      | [] => [[c]]
      | h :: r => (c :: h) :: r

/-- Does `n` occur at the start of `h`? (helper for substring search). -/
def startsWithL : List Char → List Char → Bool
  | [], _ => true
  | _ :: _, [] => false
  | a :: as_, b :: bs => a == b && startsWithL as_ bs

/-- Python `needle in haystack` substring test. -/
def containsSub (n : List Char) : List Char → Bool
  | [] => n.isEmpty
  | c :: rest => startsWithL n (c :: rest) || containsSub n rest

/-- Replace the first element satisfying `p` by its image under `f`
(models updating the row returned by a Django `.first()` query). -/
def updateFirst (p : α → Bool) (f : α → α) : List α → List α
  | [] => []
  | x :: t => if p x then f x :: t else x :: updateFirst p f t

/-- Python `a or b` for an optional string `a` (None and `""` are falsy). -/
def pyTruthyS : Option String → String → String
  | some s, d => if s = "" then d else s
  | none, d => d

/-- Python `a or b` for an optional number `a` (None and `0` are falsy). -/
def pyTruthyQ : Option ℚ → ℚ → ℚ
  | some x, d => if x = 0 then d else x
  | none, d => d

/-! ## 4.1 Number Normalizer (`normalize_number`, services.py lines 48-102) -/

/-- Numeric value of a digit string, most significant digit first. -/
def digitsVal (l : List Char) : Nat :=
  l.foldl (fun a c => 10 * a + (c.toNat - 48)) 0

/-- Are all characters decimal digits? -/
def allDigits (l : List Char) : Bool := l.all Char.isDigit

/-- Model of Python `float(s)` restricted to the token shapes reachable from
`normalize_number`: optional surrounding whitespace, optional sign, then
digits with at most one `.` (exponents, `inf`, `nan`, underscores never occur
on these code paths and make the model return `none`, like a `ValueError`). -/
def pyFloat? (l : List Char) : Option ℚ :=
  let t := trimWs l
  let su : ℚ × List Char :=
    match t with
    | c :: rest => if c = '-' then (-1, rest) else if c = '+' then (1, rest) else (1, t)
    | [] => (1, [])
  match splitSep '.' su.2 with
  | [a] =>
    if allDigits a && !a.isEmpty then some (su.1 * (digitsVal a : ℚ)) else none
  | [a, b] =>
    if allDigits a && allDigits b && !(a.isEmpty && b.isEmpty) then
      some (su.1 * ((digitsVal a : ℚ) + (digitsVal b : ℚ) / 10 ^ b.length))
    else none
  | _ => none

/-- `normalize_number` on a character list, translated clause by clause from
the source (empty/non-string guard, `strip`, comma test on the stripped
value, `split(',')`, per-part space removal, 3-digit thousands rule,
1-2 digit decimal rule, `ValueError → 0.0`). -/
def normalizeNumberCore (l : List Char) : ℚ :=
  if l.isEmpty then 0
  else
    let v := trimWs l
    if !(v.contains ',') then (pyFloat? (v.filter (fun c => !(c == ' ')))).getD 0
    else
      let parts := splitSep ',' v
      if parts.length ≠ 2 then
        -- value_str.replace(',', '').replace(' ', '')
        (pyFloat? (v.filter (fun c => !(c == ',') && !(c == ' ')))).getD 0
      else
        match parts with
        | [ip0, dp0] =>
          let ip := ip0.filter (fun c => !(c == ' '))
          let dp := dp0.filter (fun c => !(c == ' '))
          if dp.length = 3 then (pyFloat? (ip ++ dp)).getD 0
          else (pyFloat? (ip ++ '.' :: dp)).getD 0
        | _ => 0

/-- `normalize_number(value_str)` from services.py. -/
def normalize_number (s : String) : ℚ := normalizeNumberCore s.data

/-! ## 4.3 Document Type Classifier (`detect_document_type`, services.py lines 1254-1281)

Python `str.lower()` is modelled by `Char.toLower` per character (identical on
the ASCII texts this classifier is exercised with). -/

/-- Lower-cased view of a text, as in `text.lower()`. -/
def lowerText (l : List Char) : List Char := l.map Char.toLower

/-- `"pedido" in t and (...)` disjunction for Spanish order documents. -/
def pedidoEspanholPred (t : List Char) : Bool :=
  (containsSub "pedido".data t && (containsSub "españa".data t || containsSub "spain".data t)) ||
  (containsSub "pedido".data t &&
    (containsSub "artículo".data t || containsSub "articulo".data t ||
     containsSub "descripción".data t || containsSub "descripcion".data t ||
     containsSub "unidades".data t || containsSub "cantidad".data t))

/-- French order-document predicate. -/
def bonCommandePred (t : List Char) : Bool :=
  containsSub "bon de commande".data t ||
  (containsSub "commande".data t && containsSub "désignation".data t)

/-- Portuguese purchase-order predicate. -/
def ordemCompraPred (t : List Char) : Bool :=
  containsSub "ordem compra".data t || containsSub "ordem de compra".data t

/-- Elastron invoice predicate. -/
def faturaElastronPred (t : List Char) : Bool :=
  containsSub "elastron".data t && containsSub "fatura".data t

/-- Colmol delivery-note predicate. -/
def guiaColmolPred (t : List Char) : Bool :=
  containsSub "colmol".data t &&
  (containsSub "guia".data t || containsSub "comunicação de saída".data t)

/-- Generic invoice predicate: `"fatura" in t or "ft" in t`. -/
def faturaGenericaPred (t : List Char) : Bool :=
  containsSub "fatura".data t || containsSub "ft".data t

/-- Generic delivery-note predicate. -/
def guiaGenericaPred (t : List Char) : Bool :=
  containsSub "guia de remessa".data t || containsSub "guia remessa".data t

/-- Receipt predicate. -/
def reciboPred (t : List Char) : Bool :=
  containsSub "recibo".data t || containsSub "receipt".data t

/-- `detect_document_type(text)`: ordered keyword dispatch over the
lower-cased text, exactly in source order. -/
def detect_document_type (text : List Char) : String :=
  let t := lowerText text
  if pedidoEspanholPred t then "PEDIDO_ESPANHOL"
  else if bonCommandePred t then "BON_COMMANDE"
  else if ordemCompraPred t then "ORDEM_COMPRA"
  else if faturaElastronPred t then "FATURA_ELASTRON"
  else if guiaColmolPred t then "GUIA_COLMOL"
  else if faturaGenericaPred t then "FATURA_GENERICA"
  else if guiaGenericaPred t then "GUIA_GENERICA"
  else if reciboPred t then "RECIBO"
  else "DOCUMENTO_GENERICO"

/-! ## Data model (rececao/models.py), restricted to the fields the
reconciliation engine reads or writes.  Django `DecimalField`/float values
are modelled as `ℚ` (all constants involved are exactly representable). -/

/-- A `PurchaseOrder` row (`number` unique, owning supplier code). -/
structure PurchaseOrder where
  number : String
  supplier : String
deriving DecidableEq, Repr

/-- A `POLine` row. `po` holds the owning order's number. -/
structure POLine where
  po : String
  internal_sku : String
  description : String := ""
  unit : String := "UN"
  qty_ordered : ℚ
  qty_received : ℚ := 0
  tolerance : ℚ := 0
deriving DecidableEq, Repr

/-- A `CodeMapping` row. `supplier` holds the owning supplier's code. -/
structure CodeMapping where
  supplier : String
  supplier_code : String
  internal_sku : String
  qty_ordered : ℚ := 0
  confidence : ℚ := 1
deriving DecidableEq, Repr

/-- A `ReceiptLine` row of one inbound document (including the
`po_number_extracted` attribute set by `process_inbound`). -/
structure ReceiptLine where
  supplier_code : String
  article_code : String
  maybe_internal_sku : String
  description : String
  unit : String
  qty_received : ℚ
  po_number_extracted : String
deriving DecidableEq, Repr

/-- An `ExceptionTask` row of one inbound document. -/
structure ExceptionTask where
  line_ref : String
  issue : String
deriving DecidableEq, Repr

/-- One pending matching exception inside the `process_inbound` loop
(the dicts appended to the local `exceptions` list). -/
structure MatchExc where
  line : String
  issue : String
deriving DecidableEq, Repr

/-- The `summary` dict stored on `MatchResult`. -/
structure Summary where
  lines_ok : Nat
  lines_issues : Nat
  total_lines_in_document : Nat
  lines_read_successfully : Nat
  first_error_line : Option Nat
  last_successful_line : Option Nat
deriving DecidableEq, Repr

/-- A `MatchResult` row (the audit hash `certified_id` is a pure
change-detection token and is not modelled). -/
structure MatchResult where
  status : String
  summary : Summary
deriving DecidableEq, Repr

/-- An `InboundDocument` together with its dependent rows (its `ReceiptLine`s
and `ExceptionTask`s, which Django reaches through reverse relations). -/
structure InboundDocument where
  supplier : String
  doc_type : String
  number : String
  po : Option String
  lines : List ReceiptLine := []
  exceptions : List ExceptionTask := []
deriving DecidableEq, Repr

/-- The shared database tables the engine reads/writes besides the document. -/
structure DB where
  pos : List PurchaseOrder
  polines : List POLine
  mappings : List CodeMapping
deriving DecidableEq, Repr

/-! ## Extraction payload

`process_inbound` consumes the extraction result as an opaque dict; the OCR /
LLM cascade that produces it is an external collaborator (spec §4.2) and is
not modelled.  A `Produto` carries every key the engine reads, each optional
(`none` = key absent / JSON null); both the new `produtos` key naming and the
legacy `lines` key naming live in the same record. -/

/-- One extracted product line as found in `payload["produtos"]` (new keys)
or `payload["lines"]` (legacy keys). -/
structure Produto where
  artigo : Option String := none
  codigo : Option String := none
  supplier_code : Option String := none
  descricao : Option String := none
  description : Option String := none
  unidade : Option String := none
  unit : Option String := none
  quantidade : Option ℚ := none
  qty : Option ℚ := none
  referencia_ordem : Option String := none
  numero_encomenda : Option String := none
deriving DecidableEq, Repr

/-- The parsed payload dict (fields the reconciliation engine reads).
`produtos = none` models the key being absent, mirroring the
`"produtos" in payload` tests; likewise for `lines`. -/
structure Payload where
  produtos : Option (List Produto) := none
  lines : Option (List Produto) := none
  texto_completo : String := ""
  tipo_documento : Option String := none
  po_number : Option String := none
  document_number : Option String := none
  error : Option String := none
  baixa_qualidade_texto : Bool := false
deriving DecidableEq, Repr

/-- `payload.get("produtos", payload.get("lines", []))`. -/
def docItems (p : Payload) : List Produto :=
  match p.produtos with
  | some l => l
  | none => p.lines.getD []

/-! ## 4.6 Code Mapping Resolver — `map_supplier_codes` (services.py) -/

/-- The intermediate dicts built by `map_supplier_codes` before the
`ReceiptLine` rows are created.  Optional fields model keys that may be
absent in the legacy `lines` branch (which copies the input dict with `**l`). -/
structure MappedLine where
  supplier_code : String
  article_code : String
  internal_sku : Option String
  confidence : ℚ
  description : Option String
  unit : Option String
  qty : Option ℚ
  po_number_extracted : String
deriving DecidableEq, Repr

/-- One iteration of the `payload["produtos"]` branch of `map_supplier_codes`:
supplier code from the order reference's first token, CodeMapping lookup by
`article_code`. -/
def mapProduto (supplier : String) (mappings : List CodeMapping) (produto : Produto) :
    MappedLine :=
  let referencia := produto.referencia_ordem.getD ""
  let supplier_code :=
    if referencia ≠ "" then String.mk ((splitSep ' ' referencia.data).headD []) else ""
  let article_code := pyTruthyS produto.artigo ""
  let mapping :=
    if article_code ≠ "" then
      mappings.find? (fun m => m.supplier == supplier && m.supplier_code == article_code)
    else none
  { supplier_code := supplier_code
    article_code := if article_code = "" then "UNKNOWN" else article_code
    internal_sku := mapping.map (·.internal_sku)
    confidence := match mapping with | some m => m.confidence | none => 0
    description := some (pyTruthyS produto.descricao "")
    unit := some (pyTruthyS produto.unidade "UN")
    qty := some (pyTruthyQ produto.quantidade 0)
    po_number_extracted := pyTruthyS produto.numero_encomenda "" }

/-- One iteration of the legacy `payload["lines"]` branch (there
`supplier_code` was already the article/SKU; a missing `supplier_code` key is
modelled as `""`). -/
def mapOldLine (supplier : String) (mappings : List CodeMapping) (l : Produto) :
    MappedLine :=
  let sc := l.supplier_code.getD ""
  let mapping := mappings.find? (fun m => m.supplier == supplier && m.supplier_code == sc)
  { supplier_code := sc
    article_code := sc
    internal_sku := mapping.map (·.internal_sku)
    confidence := match mapping with | some m => m.confidence | none => 0
    description := l.description
    unit := l.unit
    qty := l.qty
    po_number_extracted := "" }

/-- `map_supplier_codes(supplier, payload)`: the `produtos` branch runs only
when the key is present with a non-empty list, else the `lines` branch when
that key is present, else no rows. -/
def map_supplier_codes (supplier : String) (mappings : List CodeMapping) (p : Payload) :
    List MappedLine :=
  match p.produtos with
  | some prods =>
    if prods ≠ [] then prods.map (mapProduto supplier mappings)
    else
      match p.lines with
      | some ls => ls.map (mapOldLine supplier mappings)
      | none => []
  | none =>
    match p.lines with
    | some ls => ls.map (mapOldLine supplier mappings)
    | none => []

/-- The `ReceiptLine.objects.create(...)` call in `process_inbound`, with the
`.get(..., default)` fallbacks used there. -/
def mkReceiptLine (ml : MappedLine) : ReceiptLine :=
  { supplier_code := ml.supplier_code
    article_code := ml.article_code
    maybe_internal_sku := pyTruthyS ml.internal_sku ""
    description := ml.description.getD ""
    unit := ml.unit.getD "UN"
    qty_received := ml.qty.getD 0
    po_number_extracted := ml.po_number_extracted }

/-! ## 4.7 Purchase Order Materializer — `create_po_from_nota_encomenda` -/

/-- Effective order number of one product line: its own (stripped)
`numero_encomenda` if truthy, else document number, else payload `po_number`,
else the synthesized `PO-<inbound.number>` fallback. -/
def effectivePoNumber (p : Payload) (inbNumber : String) (produto : Produto) : String :=
  let pn := String.mk (trimWs (pyTruthyS produto.numero_encomenda "").data)
  if pn ≠ "" then pn
  else pyTruthyS p.document_number (pyTruthyS p.po_number ("PO-" ++ inbNumber))

/-- `article_code or qty` extraction used by the materializer. -/
def prodArticleCode (produto : Produto) : String :=
  pyTruthyS produto.artigo (pyTruthyS produto.codigo (pyTruthyS produto.supplier_code ""))

/-- `Decimal(str(produto.get("quantidade") or produto.get("qty") or 0))`. -/
def prodQty (produto : Produto) : ℚ :=
  pyTruthyQ produto.quantidade (pyTruthyQ produto.qty 0)

/-- The `(po, internal_sku)` identity used by `POLine.objects.get_or_create`
and by the matching lookup. -/
def poLineKey (poNum sku : String) (pl : POLine) : Bool :=
  pl.po == poNum && pl.internal_sku == sku

/-- Processing of one product line inside a PO group: skip code-less or
non-positive lines; `get_or_create` the `POLine` by `(po, internal_sku)`,
adding the ordered quantity when the line already exists. -/
def addProdutoLine (polines : List POLine) (poNum : String) (produto : Produto) :
    List POLine :=
  let article_code := prodArticleCode produto
  let description := pyTruthyS produto.descricao (pyTruthyS produto.description "")
  let unit := pyTruthyS produto.unidade (pyTruthyS produto.unit "UN")
  let qty_ordered := prodQty produto
  if article_code = "" ∨ qty_ordered ≤ 0 then polines
  else
    match polines.find? (poLineKey poNum article_code) with
    | some _ =>
      updateFirst (poLineKey poNum article_code)
        (fun pl => { pl with qty_ordered := pl.qty_ordered + qty_ordered }) polines
    | none =>
      polines ++ [{ po := poNum, internal_sku := article_code, description := description,
                    unit := unit, qty_ordered := qty_ordered, qty_received := 0,
                    tolerance := 0 }]

/-- `defaultdict(list)` grouping by effective PO number, preserving the
first-seen order of keys and the order of lines inside a group. -/
def insertGrouped (k : String) (x : Produto) :
    List (String × List Produto) → List (String × List Produto)
  | [] => [(k, [x])]
  | (k', xs) :: t => if k' == k then (k', xs ++ [x]) :: t else (k', xs) :: insertGrouped k x t

/-- Group a product list by key, insertion-ordered. -/
def groupByKey (key : Produto → String) (l : List Produto) :
    List (String × List Produto) :=
  l.foldl (fun acc x => insertGrouped (key x) x acc) []

/-- Process one PO group: find-or-create the `PurchaseOrder`, then fold the
group's product lines into the `POLine` table. -/
def processPoGroup (supplier : String) (db : DB) (g : String × List Produto) : DB :=
  let db1 :=
    if (db.pos.find? (·.number == g.1)).isSome then db
    else { db with pos := db.pos ++ [⟨g.1, supplier⟩] }
  { db1 with polines := g.2.foldl (fun pls prod => addProdutoLine pls g.1 prod) db1.polines }

/-- `create_po_from_nota_encomenda(inbound, payload)`: group product lines by
effective order number, materialize each group, link the document to the
first group's PO. -/
def create_po_from_nota_encomenda (inb : InboundDocument) (p : Payload) (db : DB) :
    InboundDocument × DB :=
  let pr := p.produtos.getD []
  let produtos := if pr ≠ [] then pr else p.lines.getD []
  let groups := groupByKey (effectivePoNumber p inb.number) produtos
  let db' := groups.foldl (processPoGroup inb.supplier) db
  match groups with
  | [] => (inb, db)
  | g :: _ => ({ inb with po := some g.1 }, db')

/-! ## 4.8 Reconciliation Engine — the matching loop of `process_inbound` -/

/-- Mutable state of the `GR` matching loop: the two tables it may write,
the `ok`/`issues` counters and the pending matching exceptions. -/
structure MatchState where
  polines : List POLine
  mappings : List CodeMapping
  ok : Nat
  issues : Nat
  excs : List MatchExc
deriving DecidableEq, Repr

/-- Target-PO resolution for one receipt line: prefer the PO named by the
line's own extracted order number when it resolves, else the document's
linked PO. -/
def resolveTargetPo (pos : List PurchaseOrder) (inbPo : Option String) (r : ReceiptLine) :
    Option String :=
  if r.po_number_extracted ≠ "" then
    match pos.find? (·.number == r.po_number_extracted) with
    | some sp => some sp.number
    | none => inbPo
  else inbPo

/-- The `CodeMapping.objects.create(...)` fallback of the matching loop. -/
def autoMapping (supplier : String) (r : ReceiptLine) : CodeMapping :=
  { supplier := supplier, supplier_code := r.article_code, internal_sku := r.article_code,
    qty_ordered := if r.qty_received ≠ 0 then r.qty_received else 0, confidence := 1/2 }

/-- Code-mapping lookup with auto-creation (spec §4.6): returns the mapping
used for this line and the updated mapping table. -/
def resolveMapping (mappings : List CodeMapping) (supplier : String) (r : ReceiptLine) :
    CodeMapping × List CodeMapping :=
  match mappings.find? (fun m => m.supplier == supplier && m.supplier_code == r.article_code) with
  | some m => (m, mappings)
  | none => (autoMapping supplier r, mappings ++ [autoMapping supplier r])

/-- Issue text of a quantity-exceeded exception. -/
def qtyExceededMsg (total ordered : ℚ) (poNum : String) : String :=
  "Quantidade excedida: recebida " ++ toString total ++ " vs pedida " ++ toString ordered ++
    " (PO " ++ poNum ++ ")"

/-- One iteration of the `GR` matching loop over a receipt line. -/
def matchLine (supplier : String) (pos : List PurchaseOrder) (inbPo : Option String)
    (s : MatchState) (r : ReceiptLine) : MatchState :=
  match resolveTargetPo pos inbPo r with
  | none =>
    { s with issues := s.issues + 1,
             excs := s.excs ++ [⟨r.article_code,
               "PO não encontrada (extraído: " ++
                 (if r.po_number_extracted ≠ "" then r.po_number_extracted else "N/A") ++ ")"⟩] }
  | some tp =>
    let mm := resolveMapping s.mappings supplier r
    let sku := mm.1.internal_sku
    match s.polines.find? (poLineKey tp sku) with
    | none =>
      { s with mappings := mm.2, issues := s.issues + 1,
               excs := s.excs ++ [⟨r.article_code,
                 "Produto " ++ sku ++ " não encontrado na PO " ++ tp⟩] }
    | some pl =>
      let total := pl.qty_received + r.qty_received
      if pl.qty_ordered < total then
        { s with mappings := mm.2, issues := s.issues + 1,
                 excs := s.excs ++ [⟨r.article_code, qtyExceededMsg total pl.qty_ordered tp⟩] }
      else
        { s with mappings := mm.2,
                 polines := updateFirst (poLineKey tp sku)
                   (fun q => { q with qty_received := total }) s.polines,
                 ok := s.ok + 1 }

/-! ## `process_inbound` — validation, receipt lines, matching, result -/

/-- The `payload.get("error")` exception (any truthy value). -/
def errorExcs (p : Payload) : List ExceptionTask :=
  match p.error with
  | some e => if e = "" then [] else [⟨"OCR", "OCR extraction failed: " ++ e⟩]
  | none => []

/-- The per-product validity test of the "desformatado" check. -/
def produtoValido (produto : Produto) : Bool :=
  let codigo := pyTruthyS produto.artigo ""
  let descricao := pyTruthyS produto.descricao ""
  let quantidade := produto.quantidade.getD 0
  ((!(codigo == "") && decide (5 ≤ codigo.length)) ||
   (!(descricao == "") && decide (10 ≤ descricao.length))) && decide ((0:ℚ) < quantidade)

/-- The illegibility / low-quality / malformed-content validations of
`process_inbound`, in source order (short text `elif` no-products; then the
low-quality flag; then the >50% invalid products check). -/
def illegibilityExcs (p : Payload) : List ExceptionTask :=
  let texto := p.texto_completo
  let produtos_extraidos := p.produtos.getD []
  let linhas_extraidas := p.lines.getD []
  let doc_type := p.tipo_documento.getD ""
  let is_document_with_products :=
    containsSub "FATURA".data doc_type.data || containsSub "GUIA".data doc_type.data
  (if texto.length < 100 then
     [⟨"OCR", "Ficheiro ilegível - texto extraído muito curto (menos de 100 caracteres)"⟩]
   else if is_document_with_products && produtos_extraidos.isEmpty &&
            linhas_extraidas.isEmpty then
     [⟨"OCR", "Ficheiro ilegível - nenhum produto foi extraído do documento"⟩]
   else [])
  ++ (if p.baixa_qualidade_texto && produtos_extraidos.isEmpty && linhas_extraidas.isEmpty then
       [⟨"OCR",
         "Ficheiro ilegível - qualidade de imagem muito baixa (texto quase vazio mesmo após OCR)"⟩]
      else [])
  ++ (if produtos_extraidos.isEmpty then []
      else
        let produtos_invalidos := produtos_extraidos.countP (fun x => !(produtoValido x))
        if 1/2 < (produtos_invalidos : ℚ) / (produtos_extraidos.length : ℚ) then
          [⟨"OCR", "Ficheiro desformatado - " ++ toString produtos_invalidos ++ "/" ++
             toString produtos_extraidos.length ++
             " produtos com dados inválidos (sem código E sem descrição, ou quantidades zero)"⟩]
        else [])

/-- The PO-linking step: when the document has no PO yet, link the PO named
by `payload["po_number"] or payload["document_number"]` if it exists. -/
def linkPo (db : DB) (p : Payload) (inb : InboundDocument) : InboundDocument :=
  if inb.po.isNone then
    let po_number := pyTruthyS p.po_number (pyTruthyS p.document_number "")
    if po_number ≠ "" then
      match db.pos.find? (·.number == po_number) with
      | some po => { inb with po := some po.number }
      | none => inb
    else inb
  else inb

/-- Everything `process_inbound` does before the matching loop: error /
illegibility exceptions, the FT purchase-order materialization, receipt-line
recreation, PO linking.  Returns the updated document and database. -/
def preMatch (p : Payload) (inb0 : InboundDocument) (db0 : DB) : InboundDocument × DB :=
  let inb1 := { inb0 with exceptions := inb0.exceptions ++ errorExcs p }
  let step2 := if inb1.doc_type = "FT" then create_po_from_nota_encomenda inb1 p db0
               else (inb1, db0)
  let inb3 := { step2.1 with exceptions := step2.1.exceptions ++ illegibilityExcs p }
  let rls := (map_supplier_codes inb3.supplier step2.2.mappings p).map mkReceiptLine
  let inb4 := { inb3 with lines := rls }
  (linkPo step2.2 p inb4, step2.2)

/-- The matching phase: `FT` documents skip matching (`ok` = number of
extracted items), `GR` documents fold the matching loop over their receipt
lines, any other type does nothing. -/
def runMatching (p : Payload) (inb : InboundDocument) (db : DB) : MatchState :=
  let st0 : MatchState := ⟨db.polines, db.mappings, 0, 0, []⟩
  if inb.doc_type = "FT" then { st0 with ok := (docItems p).length }
  else if inb.doc_type = "GR" then
    inb.lines.foldl (matchLine inb.supplier db.pos inb.po) st0
  else st0

/-- The matching exceptions produced by one `process_inbound` run. -/
def matchingExcs (p : Payload) (inb : InboundDocument) (db : DB) : List MatchExc :=
  (runMatching p (preMatch p inb db).1 (preMatch p inb db).2).excs

/-- `first_error_line` scan: 1-based index of the first document item whose
code occurs inside some exception's line reference. -/
def firstErrorLineAux (excs : List MatchExc) (i : Nat) : List Produto → Option Nat
  | [] => none
  | it :: rest =>
    let code := pyTruthyS it.artigo (pyTruthyS it.supplier_code "")
    if !(code == "") && excs.any (fun ex => containsSub code.data ex.line.data) then some i
    else firstErrorLineAux excs (i + 1) rest

/-- `first_error_line` over the document items (computed only when there are
exceptions). -/
def firstErrorLine (items : List Produto) (excs : List MatchExc) : Option Nat :=
  firstErrorLineAux excs 1 items

/-- `process_inbound(inbound)` with the extraction cascade abstracted away:
the payload is an input (the cascade is an external collaborator and, per
spec, deterministic for an unchanged stored file).  Returns the updated
document, the updated shared tables, and the recomputed `MatchResult`. -/
def process_inbound (p : Payload) (inb0 : InboundDocument) (db0 : DB) :
    InboundDocument × DB × MatchResult :=
  let pm := preMatch p inb0 db0
  let inb5 := pm.1
  let db1 := pm.2
  let st := runMatching p inb5 db1
  let items := docItems p
  let fel := if st.excs ≠ [] then firstErrorLine items st.excs else none
  let ocr_errors_exist := inb5.exceptions.any (fun e => e.line_ref == "OCR")
  let finalExcs := inb5.exceptions.filter (fun e => e.line_ref == "OCR") ++
    st.excs.map (fun e => ⟨e.line, e.issue⟩)
  let status := if ocr_errors_exist then "error"
                else if st.issues = 0 then "matched" else "exceptions"
  let summary : Summary :=
    { lines_ok := st.ok, lines_issues := st.issues,
      total_lines_in_document := items.length, lines_read_successfully := st.ok,
      first_error_line := fel,
      last_successful_line := if st.ok ≠ 0 then some st.ok else none }
  ({ inb5 with exceptions := finalExcs },
   { db1 with polines := st.polines, mappings := st.mappings },
   ⟨status, summary⟩)

/-! ## Concrete scenarios used by counterexamples and witnesses -/

/-- A delivery payload with one well-formed product line of quantity 3. -/
def payC1 : Payload :=
  { produtos := some [{ artigo := some "ART01", descricao := some "Colchao de teste visco",
                        quantidade := some 3, numero_encomenda := some "" }],
    texto_completo := "x", tipo_documento := some "GUIA_COLMOL" }

/-- A fresh delivery document already linked to PO1. -/
def inbC1 : InboundDocument :=
  { supplier := "F1", doc_type := "GR", number := "G1", po := some "PO1" }

/-- Database with PO1 holding one line: 10 ordered, 0 received, no mappings. -/
def dbC1 : DB :=
  { pos := [⟨"PO1", "F1"⟩],
    polines := [{ po := "PO1", internal_sku := "ART01", qty_ordered := 10 }],
    mappings := [] }

/-- Extracted text of ≥ 100 characters (a clean extraction for the
short-text validation). -/
def longText : String :=
  "GUIA DE REMESSA numero 12345 data 2025-01-01 fornecedor Colmol colchoes e estofos " ++
  "artigos conforme encomenda anexa"

/-- A delivery payload whose only product's article code is the literal
string OCR (used to probe the status rule). -/
def payOcrCode : Payload :=
  { produtos := some [{ artigo := some "OCR", descricao := some "Descricao valida longa",
                        quantidade := some 1 }],
    texto_completo := longText, tipo_documento := some "GUIA_GENERICA" }

/-- A fresh delivery document with no linked PO. -/
def inbNoPo : InboundDocument :=
  { supplier := "F1", doc_type := "GR", number := "G6", po := none }

/-- An empty database. -/
def dbEmpty : DB := ⟨[], [], []⟩

/-- A clean delivery payload: long text, one valid product of quantity 4. -/
def payClean : Payload :=
  { produtos := some [{ artigo := some "ART02", descricao := some "Colchao molas bonnel",
                        quantidade := some 4, numero_encomenda := some "" }],
    texto_completo := longText, tipo_documento := some "GUIA_COLMOL" }

/-- A delivery document carrying one preserved OCR-class exception. -/
def inbWithOcr : InboundDocument :=
  { supplier := "F1", doc_type := "GR", number := "G7", po := some "PO1",
    exceptions := [⟨"OCR", "Ficheiro ilegível - texto extraído muito curto (menos de 100 caracteres)"⟩] }

/-- Database for the clean reprocessing scenario: PO1 has plenty of room. -/
def dbClean : DB :=
  { pos := [⟨"PO1", "F1"⟩],
    polines := [{ po := "PO1", internal_sku := "ART02", qty_ordered := 100 }],
    mappings := [⟨"F1", "ART02", "ART02", 0, 1⟩] }

/-- A payload whose extracted text is exactly 30 characters, with no products
and no diagnostic flags. -/
def pay30 : Payload := { texto_completo := "ABCDEFGHIJKLMNOPQRSTUVWXYZ0123" }

/-- The ordinary 30-character extraction: `real_ocr_extract` computes
`texto_pdfplumber_curto = len(text) < 50` and ships it in the payload as
`baixa_qualidade_texto`, so a 30-character text carries the flag. -/
def pay30q : Payload :=
  { texto_completo := "ABCDEFGHIJKLMNOPQRSTUVWXYZ0123", baixa_qualidade_texto := true }

/-- A fresh delivery document for the 30-character-text scenario. -/
def inb30 : InboundDocument :=
  { supplier := "F1", doc_type := "GR", number := "G9", po := none }

end Colmol

namespace Colmol

/-! ## Supporting lemmas -/

theorem dropWhile_eq_self_of_none (p : Char → Bool) (l : List Char)
    (h : ∀ c ∈ l, p c = false) : l.dropWhile p = l := by
  cases l with
  | nil => rfl
  | cons c t => simp [List.dropWhile_cons, h c (List.mem_cons_self c t)]

theorem trimWs_eq_self (l : List Char) (h : ∀ c ∈ l, isWs c = false) : trimWs l = l := by
  unfold trimWs
  rw [dropWhile_eq_self_of_none _ _ h,
      dropWhile_eq_self_of_none _ _ (fun c hc => h c (List.mem_reverse.1 hc)),
      List.reverse_reverse]

theorem splitSep_of_not_mem (sep : Char) (l : List Char) (h : sep ∉ l) :
    splitSep sep l = [l] := by
  induction l with
  | nil => rfl
  | cons c t ih =>
    have hc : ¬ c = sep := fun e => h (e ▸ List.mem_cons_self c t)
    have ht : sep ∉ t := fun m => h (List.mem_cons_of_mem _ m)
    simp [splitSep, hc, ih ht]

theorem splitSep_append (sep : Char) (a b : List Char) (ha : sep ∉ a) :
    splitSep sep (a ++ sep :: b) = a :: splitSep sep b := by
  induction a with
  | nil => simp [splitSep]
  | cons c t ih =>
    have hc : ¬ c = sep := fun e => ha (e ▸ List.mem_cons_self c t)
    have ht : sep ∉ t := fun m => ha (List.mem_cons_of_mem _ m)
    simp [splitSep, hc, ih ht]

theorem digit_not_ws {c : Char} (h : c.isDigit = true) : isWs c = false := by
  by_contra hne
  have hw : isWs c = true := by
    cases hx : isWs c
    · exact absurd hx hne
    · rfl
  unfold isWs at hw
  simp only [Bool.or_eq_true, beq_iff_eq] at hw
  rcases hw with ((((rfl | rfl) | rfl) | rfl) | rfl) | rfl <;> exact absurd h (by decide)

theorem digit_ne_of {c : Char} (d : Char) (hd : d.isDigit = false)
    (h : c.isDigit = true) : c ≠ d := by
  rintro rfl
  rw [h] at hd
  cases hd

theorem pyFloat?_digits (l : List Char) (h : allDigits l = true) (hne : l ≠ []) :
    pyFloat? l = some (digitsVal l : ℚ) := by
  have hd : ∀ c ∈ l, c.isDigit = true := List.all_eq_true.1 h
  have hws : ∀ c ∈ l, isWs c = false := fun c hc => digit_not_ws (hd c hc)
  have hdot : '.' ∉ l := fun m => absurd (hd _ m) (by decide)
  obtain ⟨c, t, rfl⟩ := List.exists_cons_of_ne_nil hne
  have hc : c.isDigit = true := hd c (List.mem_cons_self c t)
  simp only [pyFloat?]
  rw [trimWs_eq_self _ hws]
  simp only [digit_ne_of '-' (by decide) hc, digit_ne_of '+' (by decide) hc, if_false,
    splitSep_of_not_mem _ _ hdot]
  simp [h, one_mul]

theorem pyFloat?_digits_dot (a b : List Char) (hA : allDigits a = true)
    (hB : allDigits b = true) (hne : ¬(a = [] ∧ b = [])) :
    pyFloat? (a ++ '.' :: b) =
      some ((digitsVal a : ℚ) + (digitsVal b : ℚ) / 10 ^ b.length) := by
  have hdA : ∀ c ∈ a, c.isDigit = true := List.all_eq_true.1 hA
  have hdB : ∀ c ∈ b, c.isDigit = true := List.all_eq_true.1 hB
  have hws : ∀ c ∈ a ++ '.' :: b, isWs c = false := by
    intro c hc
    rcases List.mem_append.1 hc with h1 | h2
    · exact digit_not_ws (hdA c h1)
    · rcases List.mem_cons.1 h2 with rfl | h3
      · decide
      · exact digit_not_ws (hdB c h3)
  have hdotB : '.' ∉ b := fun m => absurd (hdB _ m) (by decide)
  simp only [pyFloat?]
  rw [trimWs_eq_self _ hws]
  cases a with
  | nil =>
    have hb : b ≠ [] := fun e => hne ⟨rfl, e⟩
    have hbe : b.isEmpty = false := by simpa [List.isEmpty_iff] using hb
    simp [splitSep, splitSep_of_not_mem _ _ hdotB, hB, hbe, allDigits]
    exact hdB
  | cons c t =>
    have hc : c.isDigit = true := hdA c (List.mem_cons_self c t)
    have hdotA : '.' ∉ c :: t := fun m => absurd (hdA _ m) (by decide)
    simp only [List.cons_append, digit_ne_of '-' (by decide) hc,
      digit_ne_of '+' (by decide) hc, if_false]
    rw [show (c :: (t ++ '.' :: b)) = (c :: t) ++ '.' :: b from rfl,
      splitSep_append _ _ _ hdotA, splitSep_of_not_mem _ _ hdotB]
    simp [hA, hB, allDigits]
    exact ⟨hc, fun x hx => hdA x (List.mem_cons_of_mem _ hx), hdB⟩

theorem contains_of_mem {l : List Char} {c : Char} (h : c ∈ l) : l.contains c = true := by
  simpa [List.contains] using h

theorem normalize_single_comma (a b : List Char) (hA : allDigits a = true)
    (hB : allDigits b = true) (hb : b ≠ []) :
    (b.length = 3 → normalizeNumberCore (a ++ ',' :: b) = (digitsVal (a ++ b) : ℚ)) ∧
    ((b.length = 1 ∨ b.length = 2) →
      normalizeNumberCore (a ++ ',' :: b) =
        (digitsVal a : ℚ) + (digitsVal b : ℚ) / 10 ^ b.length) := by
  have hdA : ∀ c ∈ a, c.isDigit = true := List.all_eq_true.1 hA
  have hdB : ∀ c ∈ b, c.isDigit = true := List.all_eq_true.1 hB
  have hws : ∀ c ∈ a ++ ',' :: b, isWs c = false := by
    intro c hc
    rcases List.mem_append.1 hc with h1 | h2
    · exact digit_not_ws (hdA c h1)
    · rcases List.mem_cons.1 h2 with rfl | h3
      · decide
      · exact digit_not_ws (hdB c h3)
  have hcomA : ',' ∉ a := fun m => absurd (hdA _ m) (by decide)
  have hcomB : ',' ∉ b := fun m => absurd (hdB _ m) (by decide)
  have hcont : (a ++ ',' :: b).contains ',' = true :=
    contains_of_mem (List.mem_append_right _ (List.mem_cons_self _ _))
  have hsplit : splitSep ',' (a ++ ',' :: b) = [a, b] := by
    rw [splitSep_append _ _ _ hcomA, splitSep_of_not_mem _ _ hcomB]
  have hfa : a.filter (fun c => !(c == ' ')) = a := by
    rw [List.filter_eq_self]
    intro x hx
    simpa using digit_ne_of ' ' (by decide) (hdA x hx)
  have hfb : b.filter (fun c => !(c == ' ')) = b := by
    rw [List.filter_eq_self]
    intro x hx
    simpa using digit_ne_of ' ' (by decide) (hdB x hx)
  have hne : (a ++ ',' :: b).isEmpty = false := by simp
  constructor
  · intro h3
    simp only [normalizeNumberCore, hne, trimWs_eq_self _ hws, hcont, hsplit, hfa, hfb,
      Bool.not_true, if_false, Bool.false_eq_true, List.length_cons, List.length_singleton]
    rw [if_neg (by norm_num), if_pos h3,
      pyFloat?_digits (a ++ b) (by simp [allDigits] at hA hB ⊢; exact ⟨hA, hB⟩)
        (by simp [hb]), Option.getD_some]
  · intro h12
    have h3 : ¬ b.length = 3 := by rcases h12 with h | h <;> omega
    simp only [normalizeNumberCore, hne, trimWs_eq_self _ hws, hcont, hsplit, hfa, hfb,
      Bool.not_true, if_false, Bool.false_eq_true, List.length_cons, List.length_singleton]
    rw [if_neg (by norm_num), if_neg h3,
      pyFloat?_digits_dot a b hA hB (fun h => hb h.2), Option.getD_some]

/-! ## Claim C3 -/

/-- C3: for an input with exactly one comma and no dot whose parts are digit
runs, `normalize_number` removes the comma when exactly 3 digits follow it
(thousands separator) and treats it as a decimal point when 1-2 digits follow
it; in particular `normalize_number("1,880") == 1880.0`,
`normalize_number("125,000") == 125000.0`, `normalize_number("34,00") == 34.0`
and `normalize_number("2,5") == 2.5`. -/
theorem claim_C3_single_comma_digit_rule :
    (∀ a b : List Char, allDigits a = true → allDigits b = true → b ≠ [] →
      (b.length = 3 → normalizeNumberCore (a ++ ',' :: b) = (digitsVal (a ++ b) : ℚ)) ∧
      ((b.length = 1 ∨ b.length = 2) →
        normalizeNumberCore (a ++ ',' :: b) =
          (digitsVal a : ℚ) + (digitsVal b : ℚ) / 10 ^ b.length)) ∧
    normalize_number "1,880" = 1880 ∧ normalize_number "125,000" = 125000 ∧
    normalize_number "34,00" = 34 ∧ normalize_number "2,5" = 5/2 := by
  refine ⟨normalize_single_comma, ?_, ?_, ?_, ?_⟩ <;>
  · simp +decide [normalize_number, normalizeNumberCore, pyFloat?, trimWs, splitSep,
      isWs, digitsVal, allDigits, List.dropWhile, List.filter, String.data]
    try norm_num

/-- Witness for C3: the digit-count rule applied at "1,880" (3 digits after
the comma, thousands) and at "34,00" (2 digits, decimal). -/
theorem claim_C3_single_comma_digit_rule_witness :
    normalizeNumberCore (['1'] ++ ',' :: ['8', '8', '0']) =
      (digitsVal (['1'] ++ ['8', '8', '0']) : ℚ) ∧
    normalizeNumberCore (['3', '4'] ++ ',' :: ['0', '0']) =
      (digitsVal ['3', '4'] : ℚ) +
        (digitsVal ['0', '0'] : ℚ) / 10 ^ (['0', '0'] : List Char).length :=
  ⟨(claim_C3_single_comma_digit_rule.1 ['1'] ['8', '8', '0'] (by decide) (by decide)
      (by decide)).1 rfl,
   (claim_C3_single_comma_digit_rule.1 ['3', '4'] ['0', '0'] (by decide) (by decide)
      (by decide)).2 (Or.inr rfl)⟩

/-! ## Claim C4 -/

/-- C4 counterexample: on "1.234,56" (one comma and one dot) the claimed
later-separator rule would give 1234.56, but `normalize_number` returns the
0.0 default: the comma-split branch rebuilds "1.234.56", which fails numeric
parsing. -/
theorem claim_C4_counterexample :
    normalize_number "1.234,56" = 0 ∧ (0 : ℚ) ≠ 1234.56 := by
  constructor
  · simp +decide [normalize_number, normalizeNumberCore, pyFloat?, trimWs, splitSep,
      isWs, digitsVal, allDigits, List.dropWhile, List.filter, String.data]
  · norm_num

theorem not_space_of_not_ws {c : Char} (h : isWs c = false) : (c == ' ') = false := by
  cases he : c == ' '
  · rfl
  · have hc : c = ' ' := by simpa using he
    subst hc
    simp [isWs] at h

theorem splitSep_ne_nil (sep : Char) (l : List Char) : splitSep sep l ≠ [] := by
  cases l with
  | nil => simp [splitSep]
  | cons c t =>
    simp only [splitSep]
    split_ifs
    · simp
    · split <;> simp

theorem splitSep_length (sep : Char) (l : List Char) :
    (splitSep sep l).length = l.count sep + 1 := by
  induction l with
  | nil => simp [splitSep]
  | cons c t ih =>
    by_cases hc : c = sep
    · simp [splitSep, hc, List.count_cons, ih]
    · rcases hs : splitSep sep t with _ | ⟨h, r⟩
      · exact absurd hs (splitSep_ne_nil sep t)
      · rw [hs] at ih
        simp only [List.length_cons] at ih
        simp [splitSep, hc, hs, List.count_cons]
        omega

theorem pyFloat?_none_of_two_dots (l : List Char) (hws : ∀ c ∈ l, isWs c = false)
    (h2 : 2 ≤ l.count '.') : pyFloat? l = none := by
  have hshape : ∀ m : List Char, 2 ≤ m.count '.' →
      ∃ x y z r, splitSep '.' m = x :: y :: z :: r := by
    intro m hm
    have hl := splitSep_length '.' m
    rcases hs : splitSep '.' m with _ | ⟨x, _ | ⟨y, _ | ⟨z, r⟩⟩⟩ <;>
      rw [hs] at hl <;> simp at hl <;> try omega
    exact ⟨x, y, z, r, rfl⟩
  simp only [pyFloat?]
  rw [trimWs_eq_self _ hws]
  cases l with
  | nil => simp at h2
  | cons c t =>
    by_cases hm : c = '-'
    · have hct : 2 ≤ t.count '.' := by
        have : c ≠ '.' := by rw [hm]; decide
        simpa [List.count_cons, this] using h2
      obtain ⟨x, y, z, r, hs⟩ := hshape t hct
      simp [hm, hs]
    · by_cases hp : c = '+'
      · have hct : 2 ≤ t.count '.' := by
          have : c ≠ '.' := by rw [hp]; decide
          simpa [List.count_cons, this] using h2
        obtain ⟨x, y, z, r, hs⟩ := hshape t hct
        simp [hm, hp, hs]
      · obtain ⟨x, y, z, r, hs⟩ := hshape (c :: t) h2
        simp [hm, hp, hs]

theorem normalize_one_comma_with_dot (a b : List Char)
    (hwsA : ∀ c ∈ a, isWs c = false) (hwsB : ∀ c ∈ b, isWs c = false)
    (hcA : ',' ∉ a) (hcB : ',' ∉ b)
    (hdot : '.' ∈ a ++ b) (hb3 : b.length ≠ 3) :
    normalizeNumberCore (a ++ ',' :: b) = 0 := by
  have hws : ∀ c ∈ a ++ ',' :: b, isWs c = false := by
    intro c hc
    rcases List.mem_append.1 hc with h1 | h2
    · exact hwsA c h1
    · rcases List.mem_cons.1 h2 with rfl | h3
      · decide
      · exact hwsB c h3
  have hwsdot : ∀ c ∈ a ++ '.' :: b, isWs c = false := by
    intro c hc
    rcases List.mem_append.1 hc with h1 | h2
    · exact hwsA c h1
    · rcases List.mem_cons.1 h2 with rfl | h3
      · decide
      · exact hwsB c h3
  have hcont : (a ++ ',' :: b).contains ',' = true :=
    contains_of_mem (List.mem_append_right _ (List.mem_cons_self _ _))
  have hsplit : splitSep ',' (a ++ ',' :: b) = [a, b] := by
    rw [splitSep_append _ _ _ hcA, splitSep_of_not_mem _ _ hcB]
  have hfa : a.filter (fun c => !(c == ' ')) = a := by
    rw [List.filter_eq_self]
    intro x hx
    simp [not_space_of_not_ws (hwsA x hx)]
  have hfb : b.filter (fun c => !(c == ' ')) = b := by
    rw [List.filter_eq_self]
    intro x hx
    simp [not_space_of_not_ws (hwsB x hx)]
  have hne : (a ++ ',' :: b).isEmpty = false := by simp
  have hcount : 2 ≤ (a ++ '.' :: b).count '.' := by
    rcases List.mem_append.1 hdot with h | h
    · have h1 : 0 < a.count '.' := List.count_pos_iff.2 h
      simp [List.count_append, List.count_cons]
      omega
    · have h1 : 0 < b.count '.' := List.count_pos_iff.2 h
      simp [List.count_append, List.count_cons]
      omega
  simp only [normalizeNumberCore, hne, trimWs_eq_self _ hws, hcont, hsplit, hfa, hfb,
    Bool.not_true, if_false, Bool.false_eq_true, List.length_cons, List.length_singleton]
  rw [if_neg (by norm_num), if_neg hb3, pyFloat?_none_of_two_dots _ hwsdot hcount]
  rfl

/-- C4 amended: with exactly one comma plus a dot, `normalize_number` applies
no later-separator rule.  Whenever the (space-stripped) part after the comma
does not have length exactly 3, the rebuilt token keeps the original dot next
to the inserted decimal point, `float()` fails, and the 0.0 default is
returned — in particular both "1.234,56" and "1,234.56" yield 0.0, not
1234.56.  When that part has length exactly 3 the comma is deleted as in the
thousands case, e.g. "1,2.5" yields 12.5. -/
theorem claim_C4_one_comma_with_dot :
    (∀ a b : List Char, (∀ c ∈ a, isWs c = false) → (∀ c ∈ b, isWs c = false) →
      ',' ∉ a → ',' ∉ b → '.' ∈ a ++ b → b.length ≠ 3 →
      normalizeNumberCore (a ++ ',' :: b) = 0) ∧
    normalize_number "1.234,56" = 0 ∧ normalize_number "1,234.56" = 0 ∧
    normalize_number "1,2.5" = 25/2 := by
  refine ⟨normalize_one_comma_with_dot, ?_, ?_, ?_⟩ <;>
  · simp +decide [normalize_number, normalizeNumberCore, pyFloat?, trimWs, splitSep,
      isWs, digitsVal, allDigits, List.dropWhile, List.filter, String.data]
    try norm_num

/-- Witness for C4: the general default rule applied at "1.234,56"
(after-comma part "56" of length 2, a dot in the before-comma part). -/
theorem claim_C4_one_comma_with_dot_witness :
    normalizeNumberCore (['1', '.', '2', '3', '4'] ++ ',' :: ['5', '6']) = 0 :=
  claim_C4_one_comma_with_dot.1 ['1', '.', '2', '3', '4'] ['5', '6']
    (by decide) (by decide) (by decide) (by decide) (by decide) (by decide)

/-! ## Claim C10 -/

/-- C10: when none of the five specific classifier predicates fires, any text
containing the two-character substring "ft" (even inside an unrelated word
such as "draft") is classified FATURA_GENERICA; consequently RECIBO is
returned only for texts containing "recibo" or "receipt" that avoid "fatura",
the substring "ft", and every earlier keyword predicate. -/
theorem claim_C10_ft_substring_rule :
    (∀ text : List Char,
      pedidoEspanholPred (lowerText text) = false →
      bonCommandePred (lowerText text) = false →
      ordemCompraPred (lowerText text) = false →
      faturaElastronPred (lowerText text) = false →
      guiaColmolPred (lowerText text) = false →
      containsSub "ft".data (lowerText text) = true →
      detect_document_type text = "FATURA_GENERICA") ∧
    (∀ text : List Char, detect_document_type text = "RECIBO" →
      (containsSub "recibo".data (lowerText text) ||
        containsSub "receipt".data (lowerText text)) = true ∧
      containsSub "fatura".data (lowerText text) = false ∧
      containsSub "ft".data (lowerText text) = false ∧
      pedidoEspanholPred (lowerText text) = false ∧
      bonCommandePred (lowerText text) = false ∧
      ordemCompraPred (lowerText text) = false ∧
      faturaElastronPred (lowerText text) = false ∧
      guiaColmolPred (lowerText text) = false ∧
      guiaGenericaPred (lowerText text) = false) := by
  constructor
  · intro text h1 h2 h3 h4 h5 hft
    simp [detect_document_type, h1, h2, h3, h4, h5, faturaGenericaPred, hft]
  · intro text h
    simp only [detect_document_type] at h
    split_ifs at h with h1 h2 h3 h4 h5 h6 h7 h8 <;> try exact absurd h (by decide)
    have h6' : containsSub "fatura".data (lowerText text) = false ∧
        containsSub "ft".data (lowerText text) = false := by
      simpa [faturaGenericaPred, Bool.or_eq_false_iff] using h6
    exact ⟨by simpa [reciboPred] using h8, h6'.1, h6'.2, by simpa using h1, by simpa using h2,
      by simpa using h3, by simpa using h4, by simpa using h5, by simpa using h7⟩

/-- Witness for C10: the unrelated word "draft" contains "ft" and is
classified as a generic invoice. -/
theorem claim_C10_ft_substring_rule_witness :
    detect_document_type "draft".data = "FATURA_GENERICA" :=
  claim_C10_ft_substring_rule.1 "draft".data (by decide) (by decide) (by decide)
    (by decide) (by decide) (by decide)

end Colmol

namespace Colmol

/-! ## Claim C2 -/

/-- C2: whenever the already-received quantity plus the receipt quantity
exceeds the ordered quantity of the matched POLine, the matching step records
a quantity-exceeded exception, counts the line as an issue, and commits no
update to the POLine table (qty_received unchanged). -/
theorem claim_C2_over_delivery_rejected
    (supplier : String) (pos : List PurchaseOrder) (inbPo : Option String)
    (s : MatchState) (r : ReceiptLine) (tp : String) (pl : POLine)
    (hpo : resolveTargetPo pos inbPo r = some tp)
    (hfind : s.polines.find?
      (poLineKey tp (resolveMapping s.mappings supplier r).1.internal_sku) = some pl)
    (hex : pl.qty_ordered < pl.qty_received + r.qty_received) :
    matchLine supplier pos inbPo s r =
      { s with mappings := (resolveMapping s.mappings supplier r).2,
               issues := s.issues + 1,
               excs := s.excs ++ [⟨r.article_code,
                 qtyExceededMsg (pl.qty_received + r.qty_received) pl.qty_ordered tp⟩] } ∧
    (matchLine supplier pos inbPo s r).polines = s.polines ∧
    (matchLine supplier pos inbPo s r).ok = s.ok := by
  have h : matchLine supplier pos inbPo s r =
      { s with mappings := (resolveMapping s.mappings supplier r).2,
               issues := s.issues + 1,
               excs := s.excs ++ [⟨r.article_code,
                 qtyExceededMsg (pl.qty_received + r.qty_received) pl.qty_ordered tp⟩] } := by
    simp only [matchLine, hpo, hfind, if_pos hex]
  exact ⟨h, by rw [h], by rw [h]⟩

/-- Witness for C2: the spec's own instance — ordered 10, received 8, receipt
quantity 3 — produces one quantity-exceeded exception and leaves the POLine
row (qty_received = 8) untouched. -/
theorem claim_C2_over_delivery_rejected_witness :
    matchLine "F1" [⟨"PO1", "F1"⟩] (some "PO1")
        ⟨[{ po := "PO1", internal_sku := "SKU1", qty_ordered := 10, qty_received := 8 }],
         [⟨"F1", "SKU1", "SKU1", 0, 1⟩], 0, 0, []⟩
        ⟨"", "SKU1", "SKU1", "", "UN", 3, ""⟩ =
      { polines := [{ po := "PO1", internal_sku := "SKU1", qty_ordered := 10,
                      qty_received := 8 }],
        mappings := [⟨"F1", "SKU1", "SKU1", 0, 1⟩], ok := 0, issues := 0 + 1,
        excs := [] ++ [⟨"SKU1", qtyExceededMsg ((8:ℚ) + 3) 10 "PO1"⟩] } ∧
      (matchLine "F1" [⟨"PO1", "F1"⟩] (some "PO1")
        ⟨[{ po := "PO1", internal_sku := "SKU1", qty_ordered := 10, qty_received := 8 }],
         [⟨"F1", "SKU1", "SKU1", 0, 1⟩], 0, 0, []⟩
        ⟨"", "SKU1", "SKU1", "", "UN", 3, ""⟩).polines =
        [{ po := "PO1", internal_sku := "SKU1", qty_ordered := 10, qty_received := 8 }] ∧
      (matchLine "F1" [⟨"PO1", "F1"⟩] (some "PO1")
        ⟨[{ po := "PO1", internal_sku := "SKU1", qty_ordered := 10, qty_received := 8 }],
         [⟨"F1", "SKU1", "SKU1", 0, 1⟩], 0, 0, []⟩
        ⟨"", "SKU1", "SKU1", "", "UN", 3, ""⟩).ok = 0 :=
  claim_C2_over_delivery_rejected "F1" [⟨"PO1", "F1"⟩] (some "PO1") _ _ "PO1"
    { po := "PO1", internal_sku := "SKU1", qty_ordered := 10, qty_received := 8 }
    (by decide) (by decide) (by norm_num)

/-! ## Claim C5 -/

theorem autoMapping_qty (supplier : String) (r : ReceiptLine) :
    autoMapping supplier r =
      { supplier := supplier, supplier_code := r.article_code,
        internal_sku := r.article_code, qty_ordered := r.qty_received,
        confidence := 1/2 } := by
  unfold autoMapping
  split_ifs with h
  · rfl
  · push_neg at h
    rw [h]

/-- C5 amended: when a receipt line's article code has no CodeMapping for the
supplier, the matching step auto-creates exactly one mapping whose
internal_sku equals the article code, whose qty_ordered equals the observed
received quantity and whose confidence is 0.5; and if the subsequent POLine
lookup succeeds AND the accumulated quantity stays within the ordered
quantity, the line counts as ok with no exception. -/
theorem claim_C5_auto_mapping
    (supplier tp : String) (pos : List PurchaseOrder) (inbPo : Option String)
    (s : MatchState) (r : ReceiptLine)
    (hpo : resolveTargetPo pos inbPo r = some tp)
    (hmiss : s.mappings.find?
      (fun m => m.supplier == supplier && m.supplier_code == r.article_code) = none) :
    (matchLine supplier pos inbPo s r).mappings =
      s.mappings ++ [{ supplier := supplier, supplier_code := r.article_code,
                       internal_sku := r.article_code, qty_ordered := r.qty_received,
                       confidence := 1/2 }] ∧
    (∀ pl, s.polines.find? (poLineKey tp r.article_code) = some pl →
      pl.qty_received + r.qty_received ≤ pl.qty_ordered →
      (matchLine supplier pos inbPo s r).ok = s.ok + 1 ∧
      (matchLine supplier pos inbPo s r).issues = s.issues ∧
      (matchLine supplier pos inbPo s r).excs = s.excs) := by
  have hres : resolveMapping s.mappings supplier r =
      (autoMapping supplier r, s.mappings ++ [autoMapping supplier r]) := by
    simp only [resolveMapping, hmiss]
  have hsku : (autoMapping supplier r).internal_sku = r.article_code := by
    rw [autoMapping_qty]
  constructor
  · simp only [matchLine, hpo, hres, hsku]
    split
    · simp [autoMapping_qty]
    · split <;> simp [autoMapping_qty]
  · intro pl hfind hle
    simp [matchLine, hpo, hres, hsku, hfind, if_neg (not_lt.2 hle)]

/-- C5 counterexample: with no existing mapping, a POLine (ordered 1,
received 0) and a receipt quantity of 5, the auto-mapping is created with
confidence 0.5 and the POLine lookup succeeds — yet the line counts as an
exception (quantity exceeded), not as ok, refuting the claim's
"lookup succeeds implies ok". -/
theorem claim_C5_counterexample :
    (let s0 : MatchState :=
      ⟨[{ po := "PO1", internal_sku := "X", qty_ordered := 1 }], [], 0, 0, []⟩
     let r : ReceiptLine := ⟨"", "X", "", "", "UN", 5, ""⟩
     let s1 := matchLine "F1" [⟨"PO1", "F1"⟩] (some "PO1") s0 r
     s1.mappings = [⟨"F1", "X", "X", 5, 1/2⟩] ∧
     (s0.polines.find? (poLineKey "PO1" "X")).isSome = true ∧
     s1.ok = 0 ∧ s1.issues = 1) := by
  simp +decide [matchLine, resolveTargetPo, resolveMapping, autoMapping, poLineKey,
    qtyExceededMsg, updateFirst]
  try norm_num

/-- Witness for C5: with no existing mapping for code Y and a POLine with
room (ordered 10, received 0, receipt 4), exactly one mapping ⟨F1,Y,Y,4,0.5⟩
is created and the line counts as ok with no exception. -/
theorem claim_C5_auto_mapping_witness :
    (matchLine "F1" [⟨"PO1", "F1"⟩] (some "PO1")
       ⟨[{ po := "PO1", internal_sku := "Y", qty_ordered := 10 }], [], 0, 0, []⟩
       ⟨"", "Y", "", "", "UN", 4, ""⟩).mappings =
      [{ supplier := "F1", supplier_code := "Y", internal_sku := "Y",
         qty_ordered := 4, confidence := 1/2 }] ∧
    (matchLine "F1" [⟨"PO1", "F1"⟩] (some "PO1")
       ⟨[{ po := "PO1", internal_sku := "Y", qty_ordered := 10 }], [], 0, 0, []⟩
       ⟨"", "Y", "", "", "UN", 4, ""⟩).ok = 1 ∧
    (matchLine "F1" [⟨"PO1", "F1"⟩] (some "PO1")
       ⟨[{ po := "PO1", internal_sku := "Y", qty_ordered := 10 }], [], 0, 0, []⟩
       ⟨"", "Y", "", "", "UN", 4, ""⟩).excs = [] := by
  have h := claim_C5_auto_mapping "F1" "PO1" [⟨"PO1", "F1"⟩] (some "PO1")
      ⟨[{ po := "PO1", internal_sku := "Y", qty_ordered := 10 }], [], 0, 0, []⟩
      ⟨"", "Y", "", "", "UN", 4, ""⟩ (by decide) rfl
  have h2 := h.2 { po := "PO1", internal_sku := "Y", qty_ordered := 10 } (by decide)
      (by norm_num)
  exact ⟨h.1, h2.1, h2.2.2⟩

/-! ## Claim C8 -/

theorem updateFirst_length (p : α → Bool) (f : α → α) (l : List α) :
    (updateFirst p f l).length = l.length := by
  induction l with
  | nil => rfl
  | cons x t ih =>
    unfold updateFirst
    split_ifs <;> simp [ih]

theorem find?_updateFirst (p : α → Bool) (f : α → α) (l : List α) (x : α)
    (hx : l.find? p = some x) (hp : p (f x) = true) :
    (updateFirst p f l).find? p = some (f x) := by
  induction l with
  | nil => simp at hx
  | cons y t ih =>
    by_cases hy : p y = true
    · rw [List.find?_cons_of_pos _ hy] at hx
      injection hx with hx
      subst hx
      simp [updateFirst, hy, List.find?_cons_of_pos _ hp]
    · have hy' : p y = false := by simpa using hy
      rw [List.find?_cons_of_neg _ (by simp [hy'])] at hx
      simp [updateFirst, hy', ih hx, List.find?_cons_of_neg, hy]

theorem countP_updateFirst (p : α → Bool) (f : α → α) (l : List α)
    (h : ∀ y, p (f y) = p y) :
    (updateFirst p f l).countP p = l.countP p := by
  induction l with
  | nil => rfl
  | cons x t ih =>
    unfold updateFirst
    split_ifs with hx
    · simp [List.countP_cons, h x]
    · simp [List.countP_cons, ih]

/-- C8: when a product line of an order-confirmation already has a POLine for
its (po, internal_sku) pair, the materializer adds the ordered quantity to the
existing row (first match), creates no second row for that pair, and keeps
the table's size unchanged. -/
theorem claim_C8_accumulate_ordered_qty
    (polines : List POLine) (poNum : String) (prod : Produto) (pl : POLine)
    (hfind : polines.find? (poLineKey poNum (prodArticleCode prod)) = some pl)
    (hc : prodArticleCode prod ≠ "") (hq : 0 < prodQty prod) :
    addProdutoLine polines poNum prod =
      updateFirst (poLineKey poNum (prodArticleCode prod))
        (fun q => { q with qty_ordered := q.qty_ordered + prodQty prod }) polines ∧
    (addProdutoLine polines poNum prod).length = polines.length ∧
    (addProdutoLine polines poNum prod).countP (poLineKey poNum (prodArticleCode prod)) =
      polines.countP (poLineKey poNum (prodArticleCode prod)) ∧
    (addProdutoLine polines poNum prod).find? (poLineKey poNum (prodArticleCode prod)) =
      some { pl with qty_ordered := pl.qty_ordered + prodQty prod } := by
  have hkey : ∀ q : POLine,
      poLineKey poNum (prodArticleCode prod)
        { q with qty_ordered := q.qty_ordered + prodQty prod } =
      poLineKey poNum (prodArticleCode prod) q := by
    intro q
    simp [poLineKey]
  have heq : addProdutoLine polines poNum prod =
      updateFirst (poLineKey poNum (prodArticleCode prod))
        (fun q => { q with qty_ordered := q.qty_ordered + prodQty prod }) polines := by
    unfold addProdutoLine
    rw [if_neg (by push_neg; exact ⟨hc, hq⟩), hfind]
  refine ⟨heq, ?_, ?_, ?_⟩
  · rw [heq, updateFirst_length]
  · rw [heq, countP_updateFirst _ _ _ hkey]
  · rw [heq, find?_updateFirst _ _ _ pl hfind]
    rw [hkey pl]
    exact List.find?_some hfind

/-- Witness for C8: a second batch of 3 units of SKU A lands on the existing
POLine (ordered 5), leaving one row with ordered 5 + 3. -/
theorem claim_C8_accumulate_ordered_qty_witness :
    (addProdutoLine [{ po := "PO1", internal_sku := "A", qty_ordered := 5 }] "PO1"
        { artigo := some "A", quantidade := some 3 }).length =
      ([{ po := "PO1", internal_sku := "A", qty_ordered := 5 }] : List POLine).length ∧
    (addProdutoLine [{ po := "PO1", internal_sku := "A", qty_ordered := 5 }] "PO1"
        { artigo := some "A", quantidade := some 3 }).find?
        (poLineKey "PO1" (prodArticleCode { artigo := some "A", quantidade := some 3 })) =
      some { po := "PO1", internal_sku := "A",
             qty_ordered := (5:ℚ) + prodQty { artigo := some "A", quantidade := some 3 } } :=
  have h := claim_C8_accumulate_ordered_qty
    [{ po := "PO1", internal_sku := "A", qty_ordered := 5 }] "PO1"
    { artigo := some "A", quantidade := some 3 }
    { po := "PO1", internal_sku := "A", qty_ordered := 5 }
    (by decide) (by decide) (by decide)
  ⟨h.2.1, h.2.2.2⟩

/-! ## Claim C1 -/

/-- C1 (code bug): reprocessing is not idempotent.  With PO1 holding one line
(ordered 10, received 0) and an unchanged one-product payload of quantity 3,
the first run writes qty_received = 3 but the second run re-applies the same
delta and writes 6; the recreated ReceiptLine set also differs (the second
run fills maybe_internal_sku from the mapping auto-created by the first). -/
theorem claim_C1_second_run_reapplies_delta :
    (process_inbound payC1 inbC1 dbC1).2.1.polines =
      [{ po := "PO1", internal_sku := "ART01", qty_ordered := 10, qty_received := 3 }] ∧
    (process_inbound payC1 (process_inbound payC1 inbC1 dbC1).1
        (process_inbound payC1 inbC1 dbC1).2.1).2.1.polines =
      [{ po := "PO1", internal_sku := "ART01", qty_ordered := 10, qty_received := 6 }] ∧
    (process_inbound payC1 inbC1 dbC1).1.lines ≠
      (process_inbound payC1 (process_inbound payC1 inbC1 dbC1).1
          (process_inbound payC1 inbC1 dbC1).2.1).1.lines := by
  refine ⟨?_, ?_, ?_⟩ <;>
  · simp +decide [process_inbound, preMatch, runMatching, matchLine, resolveTargetPo,
      resolveMapping, autoMapping, map_supplier_codes, mapProduto, mkReceiptLine, linkPo,
      illegibilityExcs, errorExcs, produtoValido, docItems, pyTruthyS, pyTruthyQ, splitSep,
      poLineKey, updateFirst, firstErrorLine, firstErrorLineAux, containsSub, startsWithL,
      payC1, inbC1, dbC1, qtyExceededMsg, create_po_from_nota_encomenda]
    try norm_num

end Colmol

namespace Colmol

/-! ## Structural lemmas about `preMatch` -/

theorem create_po_fields (inb : InboundDocument) (p : Payload) (db : DB) :
    (create_po_from_nota_encomenda inb p db).1.exceptions = inb.exceptions ∧
    (create_po_from_nota_encomenda inb p db).1.doc_type = inb.doc_type ∧
    (create_po_from_nota_encomenda inb p db).1.supplier = inb.supplier ∧
    (create_po_from_nota_encomenda inb p db).1.lines = inb.lines := by
  simp only [create_po_from_nota_encomenda]
  split <;> simp

theorem linkPo_exceptions (db : DB) (p : Payload) (inb : InboundDocument) :
    (linkPo db p inb).exceptions = inb.exceptions := by
  simp only [linkPo]
  split_ifs <;> try rfl
  split <;> rfl

theorem linkPo_doc_type (db : DB) (p : Payload) (inb : InboundDocument) :
    (linkPo db p inb).doc_type = inb.doc_type := by
  simp only [linkPo]
  split_ifs <;> try rfl
  split <;> rfl

theorem linkPo_supplier (db : DB) (p : Payload) (inb : InboundDocument) :
    (linkPo db p inb).supplier = inb.supplier := by
  simp only [linkPo]
  split_ifs <;> try rfl
  split <;> rfl

theorem linkPo_lines (db : DB) (p : Payload) (inb : InboundDocument) :
    (linkPo db p inb).lines = inb.lines := by
  simp only [linkPo]
  split_ifs <;> try rfl
  split <;> rfl

theorem preMatch_exceptions (p : Payload) (inb : InboundDocument) (db : DB) :
    (preMatch p inb db).1.exceptions =
      inb.exceptions ++ errorExcs p ++ illegibilityExcs p := by
  simp only [preMatch]
  rw [linkPo_exceptions]
  split
  · rw [(create_po_fields _ _ _).1]
  · rfl

theorem preMatch_doc_type (p : Payload) (inb : InboundDocument) (db : DB) :
    (preMatch p inb db).1.doc_type = inb.doc_type := by
  simp only [preMatch]
  rw [linkPo_doc_type]
  split
  · exact (create_po_fields _ _ _).2.1
  · rfl

/-! ## Claim C6 -/

/-- C6 amended: the final status is decided by the exceptions that exist when
the status check runs — those already on the document plus the extraction /
illegibility exceptions of this run; `error` when any of those has line_ref
"OCR", else `matched`/`exceptions` by the issue count.  Matching exceptions
recorded by this same run do not influence this run's status even when their
line_ref happens to be "OCR". -/
theorem claim_C6_status_rule (p : Payload) (inb : InboundDocument) (db : DB) :
    (process_inbound p inb db).2.2.status =
      (if (inb.exceptions ++ errorExcs p ++ illegibilityExcs p).any
            (fun e => e.line_ref == "OCR") then "error"
       else if (process_inbound p inb db).2.2.summary.lines_issues = 0 then "matched"
       else "exceptions") := by
  simp only [process_inbound]
  rw [preMatch_exceptions]

set_option maxRecDepth 4000 in
/-- C6 counterexample: a receipt line whose article code is the literal
string "OCR" and which fails PO resolution leaves an exception with
line_ref = "OCR" on the document, yet the final status is "exceptions",
not "error" — refuting "status is error whenever at least one exception with
line_ref == OCR exists". -/
theorem claim_C6_counterexample :
    ((process_inbound payOcrCode inbNoPo dbEmpty).1.exceptions.any
        (fun e => e.line_ref == "OCR")) = true ∧
    (process_inbound payOcrCode inbNoPo dbEmpty).2.2.status = "exceptions" := by
  constructor <;>
  · simp +decide [process_inbound, preMatch, runMatching, matchLine, resolveTargetPo,
      resolveMapping, autoMapping, map_supplier_codes, mapProduto, mkReceiptLine, linkPo,
      illegibilityExcs, errorExcs, produtoValido, docItems, pyTruthyS, pyTruthyQ, splitSep,
      poLineKey, updateFirst, firstErrorLine, firstErrorLineAux,
      payOcrCode, inbNoPo, dbEmpty, longText, qtyExceededMsg, create_po_from_nota_encomenda]
    try norm_num

/-! ## Claim C7 -/

/-- C7: a reprocessing pass keeps exactly the document's exceptions with
line_ref "OCR" and recreates only the matching exceptions; under a clean
extraction (no error / illegibility exceptions) whose matching exceptions are
not OCR-labelled, the number of OCR-class exceptions is unchanged. -/
theorem claim_C7_ocr_preserved (p : Payload) (inb : InboundDocument) (db : DB)
    (h1 : errorExcs p = []) (h2 : illegibilityExcs p = [])
    (h3 : ∀ e ∈ matchingExcs p inb db, ¬ e.line = "OCR") :
    (process_inbound p inb db).1.exceptions =
      inb.exceptions.filter (fun e => e.line_ref == "OCR") ++
        (matchingExcs p inb db).map (fun e => ⟨e.line, e.issue⟩) ∧
    (process_inbound p inb db).1.exceptions.countP (fun e => e.line_ref == "OCR") =
      inb.exceptions.countP (fun e => e.line_ref == "OCR") := by
  have hexc : (process_inbound p inb db).1.exceptions =
      inb.exceptions.filter (fun e => e.line_ref == "OCR") ++
        (matchingExcs p inb db).map (fun e => ⟨e.line, e.issue⟩) := by
    simp only [process_inbound]
    rw [preMatch_exceptions, h1, h2]
    simp [matchingExcs]
  refine ⟨hexc, ?_⟩
  rw [hexc, List.countP_append]
  have hz : ((matchingExcs p inb db).map
      (fun e => (⟨e.line, e.issue⟩ : ExceptionTask))).countP
        (fun e => e.line_ref == "OCR") = 0 := by
    rw [List.countP_eq_zero]
    intro e he
    obtain ⟨x, hx, rfl⟩ := List.mem_map.1 he
    simpa using h3 x hx
  have hf : (inb.exceptions.filter (fun e => e.line_ref == "OCR")).countP
      (fun e => e.line_ref == "OCR") =
      inb.exceptions.countP (fun e => e.line_ref == "OCR") := by
    rw [List.countP_filter]
    simp
  rw [hz, hf]
  omega

set_option maxRecDepth 4000 in
/-- Witness for C7: a document holding exactly one OCR-class exception,
reprocessed with a clean extraction that matches cleanly, still has exactly
one OCR-class exception afterwards. -/
theorem claim_C7_ocr_preserved_witness :
    (process_inbound payClean inbWithOcr dbClean).1.exceptions.countP
        (fun e => e.line_ref == "OCR") =
      inbWithOcr.exceptions.countP (fun e => e.line_ref == "OCR") ∧
    inbWithOcr.exceptions.countP (fun e => e.line_ref == "OCR") = 1 := by
  have h2 : illegibilityExcs payClean = [] := by
    simp +decide [illegibilityExcs, produtoValido, payClean, longText, pyTruthyS]
    try norm_num
  have hm : matchingExcs payClean inbWithOcr dbClean = [] := by
    simp +decide [matchingExcs, preMatch, runMatching, matchLine, resolveTargetPo,
      resolveMapping, autoMapping, map_supplier_codes, mapProduto, mkReceiptLine, linkPo,
      illegibilityExcs, errorExcs, produtoValido, docItems, pyTruthyS, pyTruthyQ, splitSep,
      poLineKey, updateFirst, payClean, inbWithOcr, dbClean, longText, qtyExceededMsg,
      create_po_from_nota_encomenda]
    try norm_num
  refine ⟨(claim_C7_ocr_preserved payClean inbWithOcr dbClean rfl h2 ?_).2, by decide⟩
  rw [hm]
  intro e he
  simp at he

/-! ## Claim C9 -/

theorem create_po_empty (inb : InboundDocument) (p : Payload) (db : DB)
    (hprod : p.produtos.getD [] = []) (hlines : p.lines.getD [] = []) :
    create_po_from_nota_encomenda inb p db = (inb, db) := by
  simp [create_po_from_nota_encomenda, hprod, hlines, groupByKey]

theorem map_supplier_codes_empty (supplier : String) (mappings : List CodeMapping)
    (p : Payload) (hprod : p.produtos.getD [] = []) (hlines : p.lines.getD [] = []) :
    map_supplier_codes supplier mappings p = [] := by
  unfold map_supplier_codes
  rcases hp : p.produtos with _ | l
  · rcases hl : p.lines with _ | m
    · rfl
    · have hm : m = [] := by simpa [hl] using hlines
      simp [hm]
  · have hl0 : l = [] := by simpa [hp] using hprod
    subst hl0
    rcases hl : p.lines with _ | m
    · simp
    · have hm : m = [] := by simpa [hl] using hlines
      simp [hm]

theorem docItems_empty (p : Payload)
    (hprod : p.produtos.getD [] = []) (hlines : p.lines.getD [] = []) :
    docItems p = [] := by
  unfold docItems
  rcases hp : p.produtos with _ | l
  · exact hlines
  · have hl0 : l = [] := by simpa [hp] using hprod
    simp [hl0]

/-- C9 amended: a document whose extracted text is 30 characters long (with
no extraction-error flag and no extracted products), processed fresh, ends
with zero receipt lines, status "error", and OCR-class exceptions only: the
short-text illegibility exception, plus the low-quality exception exactly
when the payload carries the `baixa_qualidade_texto` flag — which
`real_ocr_extract` sets for every extraction under 50 characters, so an
ordinary 30-character extraction gets exactly two OCR-class exceptions. -/
theorem claim_C9_short_text (p : Payload) (inb : InboundDocument) (db : DB)
    (hlen : p.texto_completo.length = 30)
    (herr : p.error = none)
    (hprod : p.produtos.getD [] = []) (hlines : p.lines.getD [] = [])
    (hexc : inb.exceptions = []) :
    (process_inbound p inb db).1.lines = [] ∧
    (process_inbound p inb db).1.exceptions =
      ⟨"OCR", "Ficheiro ilegível - texto extraído muito curto (menos de 100 caracteres)"⟩ ::
        (if p.baixa_qualidade_texto then
          [⟨"OCR",
            "Ficheiro ilegível - qualidade de imagem muito baixa (texto quase vazio mesmo após OCR)"⟩]
         else []) ∧
    (process_inbound p inb db).2.2.status = "error" := by
  have herrE : errorExcs p = [] := by simp [errorExcs, herr]
  have hille : illegibilityExcs p =
      ⟨"OCR", "Ficheiro ilegível - texto extraído muito curto (menos de 100 caracteres)"⟩ ::
        (if p.baixa_qualidade_texto then
          [⟨"OCR",
            "Ficheiro ilegível - qualidade de imagem muito baixa (texto quase vazio mesmo após OCR)"⟩]
         else []) := by
    simp [illegibilityExcs, hlen, hprod, hlines]
  have hpm1 : (preMatch p inb db).1.lines = [] := by
    simp only [preMatch]
    rw [linkPo_lines]
    simp [map_supplier_codes_empty _ _ _ hprod hlines]
  have hpmE : (preMatch p inb db).1.exceptions =
      ⟨"OCR", "Ficheiro ilegível - texto extraído muito curto (menos de 100 caracteres)"⟩ ::
        (if p.baixa_qualidade_texto then
          [⟨"OCR",
            "Ficheiro ilegível - qualidade de imagem muito baixa (texto quase vazio mesmo após OCR)"⟩]
         else []) := by
    rw [preMatch_exceptions, hexc, herrE, hille]
    rfl
  have hst : runMatching p (preMatch p inb db).1 (preMatch p inb db).2 =
      ⟨(preMatch p inb db).2.polines, (preMatch p inb db).2.mappings, 0, 0, []⟩ := by
    unfold runMatching
    split_ifs with hft hgr
    · rw [docItems_empty p hprod hlines]
      rfl
    · rw [hpm1]
      rfl
    · rfl
  refine ⟨?_, ?_, ?_⟩
  · simp only [process_inbound]
    rw [hpm1]
  · simp only [process_inbound]
    rw [hpmE, hst]
    cases hbq : p.baixa_qualidade_texto <;> simp +decide
  · simp only [process_inbound]
    rw [hpmE, hst]
    cases hbq : p.baixa_qualidade_texto <;> simp +decide

set_option maxRecDepth 4000 in
/-- C9 counterexample: the ordinary 30-character extraction carries the
low-quality flag (`len(text) < 50`), so the document ends with TWO OCR-class
exceptions — the short-text one and the low-quality one — refuting the
claim's "exactly one OCR-class exception". -/
theorem claim_C9_counterexample :
    (process_inbound pay30q inb30 dbEmpty).1.exceptions.countP
        (fun e => e.line_ref == "OCR") = 2 ∧ (2 : Nat) ≠ 1 := by
  constructor
  · simp +decide [process_inbound, preMatch, runMatching, matchLine, resolveTargetPo,
      resolveMapping, autoMapping, map_supplier_codes, mapProduto, mkReceiptLine, linkPo,
      illegibilityExcs, errorExcs, produtoValido, docItems, pyTruthyS, pyTruthyQ, splitSep,
      poLineKey, updateFirst, firstErrorLine, firstErrorLineAux,
      pay30q, inb30, dbEmpty, qtyExceededMsg, create_po_from_nota_encomenda]
    try norm_num
  · decide

/-- Witness for C9: the ordinary 30-character extraction (low-quality flag
set) on a fresh document gives no receipt lines, the two OCR-class
exceptions, and status "error". -/
theorem claim_C9_short_text_witness :
    (process_inbound pay30q inb30 dbEmpty).1.lines = [] ∧
    (process_inbound pay30q inb30 dbEmpty).1.exceptions =
      [⟨"OCR", "Ficheiro ilegível - texto extraído muito curto (menos de 100 caracteres)"⟩,
       ⟨"OCR",
        "Ficheiro ilegível - qualidade de imagem muito baixa (texto quase vazio mesmo após OCR)"⟩] ∧
    (process_inbound pay30q inb30 dbEmpty).2.2.status = "error" :=
  claim_C9_short_text pay30q inb30 dbEmpty (by decide) rfl rfl rfl rfl

end Colmol
